import Mathlib

/-!
# Verification of MFLUX-WEBUI upscale and fine-tuning UI logic

Shallow embedding of `src/backend/upscale_manager.py` and the handler logic of
`src/frontend/components/dreambooth_fine_tuning.py`.

Images are abstracted to their pixel dimensions; the external mflux upscaler is
an environment parameter (a function from image and factor to an optional
result image, mirroring `upscale_image` which returns `None` on failure).
Python floats are modelled by exact rationals (the scale arithmetic involved is
exact at the magnitudes concerned); `float(...)` string parsing is modelled on
finite decimal literals with optional sign, fraction and exponent (special
values `inf`/`nan` and digit underscores are outside the modelled subset).
-/

/-- An image, abstracted to its pixel dimensions (PIL `Image.width`/`Image.height`). -/
structure Img where
  width : Nat
  height : Nat
deriving DecidableEq, Repr

/-- Environment of one upscale call: the input image (`none` models a falsy
`input_image` argument) and the external upscaler behaviour
(`upscale_image` in `upscale_manager.py` returns `None` on any failure). -/
structure UpscaleEnv where
  inputImage : Option Img
  upscaler : Img → Int → Option Img

/-- Record of a saved output file: its name and the `quality` keyword passed to
`PIL.Image.save` (`none` for PNG, which gets no quality parameter). -/
structure SaveInfo where
  filename : String
  quality : Option Nat
deriving DecidableEq, Repr

/-- Observable outcome of one call to a single-image gradio entry point:
the returned pair `(image, message)`, the number of cleanup invocations
(`gc.collect()` + `force_mlx_cleanup()` pairs executed in `finally`), the file
saved (if any), and the list of scale factors passed to the external upscaler. -/
structure UpscaleOutcome where
  image : Option Img
  message : String
  cleanups : Nat
  saved : Option SaveInfo
  upscalerCalls : List Int
deriving DecidableEq, Repr

/-- Python `str.strip()`: remove leading and trailing whitespace. -/
def pyStrip (l : List Char) : List Char :=
  ((l.dropWhile Char.isWhitespace).reverse.dropWhile Char.isWhitespace).reverse

/-- Python `str.lower()` on the ASCII range (the inputs concerned are ASCII). -/
def pyLowerChar (c : Char) : Char :=
  if 'A' ≤ c ∧ c ≤ 'Z' then Char.ofNat (c.toNat + 32) else c

/-- Python `str.lower()`. -/
def pyLower (l : List Char) : List Char := l.map pyLowerChar

/-- Python `str.endswith('x')`: the last character is `x`. -/
def endsInX (l : List Char) : Bool :=
  match l.getLast? with
  | some c => c = 'x'
  | none => false

/-- Digits to a natural number, most significant first (`int` of a digit string). -/
def digitsToNat (l : List Char) : Nat :=
  l.foldl (fun a c => a * 10 + (c.toNat - 48)) 0

/-- Consume an optional leading sign; returns (isNegative, rest). -/
def parseSign : List Char → Bool × List Char
  | '+' :: r => (false, r)
  | '-' :: r => (true, r)
  | l => (false, l)

/-- Split a leading run of decimal digits from the rest. -/
def splitDigits (l : List Char) : List Char × List Char :=
  (l.takeWhile Char.isDigit, l.dropWhile Char.isDigit)

/-- Model of Python `float(s)` on finite decimal literals: optional surrounding
whitespace, optional sign, digits with optional fraction part, optional
decimal exponent. Returns `none` where Python raises `ValueError`. -/
def parseFloat? (s : String) : Option ℚ :=
  let l := pyStrip s.toList
  let p := parseSign l
  let neg := p.1
  let d1 := splitDigits p.2
  let frac : List Char × List Char :=
    match d1.2 with
    | '.' :: r => splitDigits r
    | _ => ([], d1.2)
  if d1.1.isEmpty ∧ frac.1.isEmpty then none
  else
    let m := digitsToNat (d1.1 ++ frac.1)
    let k := frac.1.length
    match frac.2 with
    | [] =>
      let mant : ℚ := mkRat (m : ℤ) (10 ^ k)
      some (if neg then -mant else mant)
    | c :: r =>
      if c = 'e' ∨ c = 'E' then
        let ep := parseSign r
        let ed := splitDigits ep.2
        if ed.1.isEmpty ∨ ¬ ed.2.isEmpty then none
        else
          let e := digitsToNat ed.1
          let v : ℚ := if ep.1 then mkRat (m : ℤ) (10 ^ k * 10 ^ e)
                       else mkRat ((m : ℤ) * 10 ^ e) (10 ^ k)
          some (if neg then -v else v)
      else none

/-- Python `int(x)` on a finite float value: truncation toward zero. -/
def pyInt (q : ℚ) : ℤ := q.num.tdiv (q.den : ℤ)

/-- The upscale-factor resolution of `upscale_image_gradio` for a string
argument (lines 58-72 of `upscale_manager.py`): a trailing `x` marks a scale
form whose `x`s are removed before `float`-parsing, otherwise the string is
parsed directly; a `ValueError` from `float` falls back to 2.  A string that
strips to empty but is itself nonempty reaches `int(upscale_factor)`, whose
uncaught `ValueError` propagates to the function-level handler (`.error`). -/
def resolve_upscale_factor (s : String) : Except String Int :=
  if pyStrip s.toList ≠ [] then
    let t := pyLower (pyStrip s.toList)
    if endsInX t then
      match parseFloat? ⟨t.filter (· ≠ 'x')⟩ with
      | some q => .ok (pyInt q)
      | none => .ok 2
    else
      match parseFloat? s with
      | some q => .ok (pyInt q)
      | none => .ok 2
  else if s ≠ "" then
    .error ("Error: invalid literal for int() with base 10: " ++ s)
  else
    .ok 2

/-- File extension chosen from the `output_format` dropdown value
(PNG / JPEG / anything else is WebP). -/
def formatExt (fmt : String) : String :=
  if fmt = "PNG" then "png" else if fmt = "JPEG" then "jpg" else "webp"

/-- The `quality` keyword passed to `save`: none for PNG (lossless),
95 for JPEG and WebP. -/
def formatQuality (fmt : String) : Option Nat :=
  if fmt = "PNG" then none else some 95

/-- `upscale_image_gradio(input_image, upscale_factor, output_format, metadata)`
for a string `upscale_factor`, over an abstract environment.  Mirrors
`upscale_manager.py` lines 42-138: missing input short-circuits with an error
pair; the factor is resolved and validated against `[2, 3, 4]` (out-of-range
returns an error pair without calling the upscaler); a `None` from the
upscaler yields an error pair; otherwise the image is saved under
`upscaled_{factor}x_{timestamp}.{ext}` and a success pair returned.  The
`finally` block runs exactly one cleanup on every path. -/
def upscale_image_gradio (env : UpscaleEnv) (upscale_factor : String)
    (output_format : String) (timestamp : Nat) : UpscaleOutcome :=
  match env.inputImage with
  | none => ⟨none, "Error: Input image is required", 1, none, []⟩
  | some img =>
    match resolve_upscale_factor upscale_factor with
    | .error m => ⟨none, m, 1, none, []⟩
    | .ok f =>
      if f ∈ ([2, 3, 4] : List Int) then
        match env.upscaler img f with
        | none => ⟨none, "Error: Failed to upscale image", 1, none, [f]⟩
        | some up =>
          let fname := "upscaled_" ++ toString f ++ "x_" ++ toString timestamp
            ++ "." ++ formatExt output_format
          ⟨some up,
           "Successfully upscaled image " ++ toString f ++ "x to "
             ++ toString up.width ++ "x" ++ toString up.height,
           1, some ⟨fname, formatQuality output_format⟩, [f]⟩
      else ⟨none, "Error: Upscale factor must be 2, 3, or 4", 1, none, []⟩

/-- Modelled from the spec: `parse_scale_factor` lives in
`backend/flux_manager.py`, which is not among the provided sources.  Per the
spec it resolves a requested dimension, accepting scale forms like `"2x"` or an
absolute pixel value; a plain number is the absolute target dimension, which is
the only case the claims exercise. -/
def parse_scale_factor (target : Nat) (_original : Nat) : Nat := target

/-- `upscale_with_custom_dimensions_gradio` (lines 144-241) for numeric target
dimensions: the targets are resolved, the effective scale is the larger of the
width and height ratios, bucketed into 2 / 3 / 4 at thresholds 2.5 and 3.5;
after the external call a mismatching result is resized to exactly the target
box.  A zero original dimension raises `ZeroDivisionError`, caught by the
function-level handler.  The `finally` block runs exactly one cleanup. -/
def upscale_with_custom_dimensions_gradio (env : UpscaleEnv)
    (target_width target_height : Nat) (output_format : String)
    (timestamp : Nat) : UpscaleOutcome :=
  match env.inputImage with
  | none => ⟨none, "Error: Input image is required", 1, none, []⟩
  | some img =>
    if img.width = 0 ∨ img.height = 0 then
      ⟨none, "Error: division by zero", 1, none, []⟩
    else
      let final_width := parse_scale_factor target_width img.width
      let final_height := parse_scale_factor target_height img.height
      let scale_x : ℚ := mkRat (final_width : ℤ) img.width
      let scale_y : ℚ := mkRat (final_height : ℤ) img.height
      let effective_scale := max scale_x scale_y
      let f : Int :=
        if effective_scale ≤ mkRat 5 2 then 2
        else if effective_scale ≤ mkRat 7 2 then 3
        else 4
      match env.upscaler img f with
      | none => ⟨none, "Error: Failed to upscale image", 1, none, [f]⟩
      | some up =>
        let final :=
          if up.width ≠ final_width ∨ up.height ≠ final_height then
            (⟨final_width, final_height⟩ : Img)
          else up
        let fname := "upscaled_custom_" ++ toString final_width ++ "x"
          ++ toString final_height ++ "_" ++ toString timestamp
          ++ "." ++ formatExt output_format
        ⟨some final,
         "Successfully upscaled image to " ++ toString final.width ++ "x"
           ++ toString final.height,
         1, some ⟨fname, formatQuality output_format⟩, [f]⟩

/-- Observable outcome of `batch_upscale_gradio`: the returned pair and the
total number of cleanup invocations performed during the call (the batch
function itself has no `finally` cleanup; cleanups come only from the inner
`upscale_image_gradio` calls). -/
structure BatchOutcome where
  images : List Img
  message : String
  cleanups : Nat
deriving DecidableEq, Repr

/-- The per-item loop of `batch_upscale_gradio` (lines 256-271): each image is
fed to `upscale_image_gradio`; a truthy result is collected, otherwise the
error message is recorded labelled `Image {idx+1}`.  Returns (successes,
error strings, total cleanups). -/
def batch_loop (envs : List UpscaleEnv) (idx : Nat) (upscale_factor : String)
    (output_format : String) (timestamp : Nat) :
    List Img × List String × Nat :=
  match envs with
  | [] => ([], [], 0)
  | e :: rest =>
    let r := upscale_image_gradio e upscale_factor output_format timestamp
    let acc := batch_loop rest (idx + 1) upscale_factor output_format timestamp
    match r.image with
    | some img => (img :: acc.1, acc.2.1, r.cleanups + acc.2.2)
    | none =>
      (acc.1, ("Image " ++ toString (idx + 1) ++ ": " ++ r.message) :: acc.2.1,
       r.cleanups + acc.2.2)

/-- `batch_upscale_gradio(input_images, upscale_factor, output_format,
metadata)` (lines 243-285): empty input returns `([], "Error: No images
provided")`; otherwise images are processed sequentially and the final message
counts successes and appends the collected per-item errors, or reports total
failure. -/
def batch_upscale_gradio (envs : List UpscaleEnv) (upscale_factor : String)
    (output_format : String) (timestamp : Nat) : BatchOutcome :=
  if envs.isEmpty then ⟨[], "Error: No images provided", 0⟩
  else
    let acc := batch_loop envs 0 upscale_factor output_format timestamp
    if acc.1 ≠ [] then
      let base := "Successfully upscaled " ++ toString acc.1.length ++ " image(s)"
      let msg := if acc.2.1 ≠ [] then
          base ++ "\n\nErrors:\n" ++ String.intercalate "\n" acc.2.1
        else base
      ⟨acc.1, msg, acc.2.2⟩
    else
      ⟨[], "Failed to upscale any images\n\n" ++ String.intercalate "\n" acc.2.1,
       acc.2.2⟩

/-- A Gradio widget update (`gr.update(value=..., visible=...)`): the new value
(`none` models Python `None`; for the image widgets the value is the file name,
for the caption widgets a caption string) and the visibility flag. -/
structure GrUpdate where
  value : Option String
  visible : Bool
deriving DecidableEq, Repr

/-- `update_blocks_visibility(transformer_enabled, single_enabled)` in
`dreambooth_fine_tuning.py` lines 312-322, wired identically to the `change`
events of both checkboxes; its outputs update
`[transformer_blocks_enabled, single_blocks_enabled]` in that order.  When both
are enabled it returns `(True, False)`; otherwise both values pass through. -/
def update_blocks_visibility (transformer_enabled single_enabled : Bool) :
    Bool × Bool :=
  if transformer_enabled && single_enabled then (true, false)
  else (transformer_enabled, single_enabled)

/-- `show_images(files)` in `dreambooth_fine_tuning.py` lines 135-151: the
upload handler for the 20 image/caption widget pairs.  A falsy `files` (Python
`None` or an empty list, modelled by `none` / `some []`) yields 40 hidden
updates with `value=None`; otherwise the first 20 files each produce a visible
image update and a visible emptied caption update, and the remaining slots are
hidden (image `value=None`, caption `value=""`). -/
def show_images (files : Option (List String)) : List GrUpdate :=
  if (files.getD []).isEmpty then
    List.replicate 40 ⟨none, false⟩
  else
    let shown := ((files.getD []).take 20).flatMap
      (fun f => [(⟨some f, true⟩ : GrUpdate), ⟨some "", true⟩])
    let remaining := 20 - ((files.getD []).take 20).length
    shown ++ (List.replicate remaining
      ([⟨none, false⟩, ⟨some "", false⟩] : List GrUpdate)).flatten

/-- A 100×100 input image with an ideally behaving upscaler that multiplies
both dimensions by the requested factor. -/
def envOk : UpscaleEnv :=
  { inputImage := some ⟨100, 100⟩,
    upscaler := fun i f => some ⟨i.width * f.toNat, i.height * f.toNat⟩ }

/-- An environment with a falsy `input_image`. -/
def envNoInput : UpscaleEnv :=
  { inputImage := none, upscaler := fun _ _ => none }

/-- A 100×100 input image whose external upscaler always fails
(`upscale_image` returns `None`). -/
def envFail : UpscaleEnv :=
  { inputImage := some ⟨100, 100⟩, upscaler := fun _ _ => none }

/-- When the factor resolves to a supported value, the external upscaler is
invoked exactly once with that factor. -/
theorem upscalerCalls_of_ok (env : UpscaleEnv) (s fmt : String) (ts : Nat)
    (img : Img) (h : env.inputImage = some img) (f : Int)
    (hr : resolve_upscale_factor s = .ok f) (hf : f ∈ ([2, 3, 4] : List Int)) :
    (upscale_image_gradio env s fmt ts).upscalerCalls = [f] := by
  unfold upscale_image_gradio
  simp only [h, hr]
  rw [if_pos hf]
  cases env.upscaler img f <;> rfl

/-- When the factor resolves to an unsupported value, the call is rejected:
no upscaler call, no image, and an explicit error message. -/
theorem rejected_of_ok_notin (env : UpscaleEnv) (s fmt : String) (ts : Nat)
    (img : Img) (h : env.inputImage = some img) (f : Int)
    (hr : resolve_upscale_factor s = .ok f)
    (hf : f ∉ ([2, 3, 4] : List Int)) :
    upscale_image_gradio env s fmt ts
      = ⟨none, "Error: Upscale factor must be 2, 3, or 4", 1, none, []⟩ := by
  unfold upscale_image_gradio
  simp only [h, hr]
  rw [if_neg hf]

/-- A `float`-unparsable scale string resolves to the default factor 2. -/
theorem resolve_fallback (s : String) (h0 : pyStrip s.toList ≠ [])
    (hx : endsInX (pyLower (pyStrip s.toList)) = false
          → parseFloat? s = none)
    (hx' : endsInX (pyLower (pyStrip s.toList)) = true
          → parseFloat? ⟨(pyLower (pyStrip s.toList)).filter (· ≠ 'x')⟩ = none) :
    resolve_upscale_factor s = .ok 2 := by
  unfold resolve_upscale_factor
  rw [if_pos h0]
  cases he : endsInX (pyLower (pyStrip s.toList))
  · rw [if_neg (by rw [he]; decide), hx he]
  · rw [if_pos he, hx' he]

/-- C1: for `upscale_image_gradio`, the scale string `"2x"` resolves to factor
2, `"3"` to 3, `"4.0"` to 4, while `"5x"` is rejected with an error result and
no upscaler call; a `float`-unparsable string falls back to the default
factor 2. -/
theorem upscale_factor_resolution (env : UpscaleEnv) (fmt : String) (ts : Nat)
    (img : Img) (h : env.inputImage = some img) :
    (upscale_image_gradio env "2x" fmt ts).upscalerCalls = [2]
    ∧ (upscale_image_gradio env "3" fmt ts).upscalerCalls = [3]
    ∧ (upscale_image_gradio env "4.0" fmt ts).upscalerCalls = [4]
    ∧ (upscale_image_gradio env "5x" fmt ts).upscalerCalls = []
    ∧ (upscale_image_gradio env "5x" fmt ts).image = none
    ∧ (upscale_image_gradio env "5x" fmt ts).message
        = "Error: Upscale factor must be 2, 3, or 4"
    ∧ (∀ s : String, pyStrip s.toList ≠ [] →
        endsInX (pyLower (pyStrip s.toList)) = false →
        parseFloat? s = none →
        (upscale_image_gradio env s fmt ts).upscalerCalls = [2])
    ∧ (∀ s : String, pyStrip s.toList ≠ [] →
        endsInX (pyLower (pyStrip s.toList)) = true →
        parseFloat? ⟨(pyLower (pyStrip s.toList)).filter (· ≠ 'x')⟩ = none →
        (upscale_image_gradio env s fmt ts).upscalerCalls = [2]) := by
  have h5 := rejected_of_ok_notin env "5x" fmt ts img h 5 rfl (by decide)
  refine ⟨upscalerCalls_of_ok env "2x" fmt ts img h 2 rfl (by decide),
    upscalerCalls_of_ok env "3" fmt ts img h 3 rfl (by decide),
    upscalerCalls_of_ok env "4.0" fmt ts img h 4 rfl (by decide),
    by rw [h5], by rw [h5], by rw [h5], ?_, ?_⟩
  · intro s h0 he hp
    exact upscalerCalls_of_ok env s fmt ts img h 2
      (resolve_fallback s h0 (fun _ => hp)
        (fun h' => absurd h' (by rw [he]; decide)))
      (by decide)
  · intro s h0 he hp
    exact upscalerCalls_of_ok env s fmt ts img h 2
      (resolve_fallback s h0 (fun h' => absurd h' (by rw [he]; decide))
        (fun _ => hp))
      (by decide)

/-- Witness for C1 at a concrete environment, including the concrete fallback
input `"abc"`. -/
theorem upscale_factor_resolution_witness :
    envOk.inputImage = some ⟨100, 100⟩
    ∧ (upscale_image_gradio envOk "2x" "PNG" 0).upscalerCalls = [2]
    ∧ (upscale_image_gradio envOk "abc" "PNG" 0).upscalerCalls = [2] := by
  have t := upscale_factor_resolution envOk "PNG" 0 ⟨100, 100⟩ rfl
  exact ⟨rfl, t.1, t.2.2.2.2.2.2.1 "abc" (by decide) (by decide) (by decide)⟩

/-- C2 (amended): the factor passed to the external upscaler is always one of
{2, 3, 4} in both entry points; but in `upscale_image_gradio` an out-of-range
resolved factor is rejected with an error result (the external call is
skipped), not clamped -- only the custom-dimensions path rounds every computed
scale into the supported set. -/
theorem upscale_factor_invariant :
    (∀ (env : UpscaleEnv) (s fmt : String) (ts : Nat) (f : Int),
       f ∈ (upscale_image_gradio env s fmt ts).upscalerCalls →
       f ∈ ([2, 3, 4] : List Int))
    ∧ (∀ (env : UpscaleEnv) (tw th : Nat) (fmt : String) (ts : Nat) (f : Int),
       f ∈ (upscale_with_custom_dimensions_gradio env tw th fmt ts).upscalerCalls →
       f ∈ ([2, 3, 4] : List Int)) := by
  constructor
  · intro env s fmt ts f hf
    unfold upscale_image_gradio at hf
    split at hf
    · simp at hf
    · split at hf
      · simp at hf
      · split at hf
        · split at hf <;> simp_all
        · simp at hf
  · intro env tw th fmt ts f hf
    unfold upscale_with_custom_dimensions_gradio at hf
    split at hf
    · simp at hf
    · split at hf
      · simp at hf
      · dsimp only at hf
        split at hf <;>
        · simp only [List.mem_singleton] at hf
          subst hf
          split
          · simp_all
          · split <;> simp_all

/-- C2 counterexample: for the scale string "5x", `upscale_image_gradio`
skips the external call and returns an error result instead of clamping the
out-of-range factor 5 to a supported one. -/
theorem upscale_factor_clamping_counterexample :
    (upscale_image_gradio envOk "5x" "PNG" 0).upscalerCalls = []
    ∧ (upscale_image_gradio envOk "5x" "PNG" 0).image = none
    ∧ (upscale_image_gradio envOk "5x" "PNG" 0).message
        = "Error: Upscale factor must be 2, 3, or 4" := by decide

/-- Witness for C2 at concrete environments and factors. -/
theorem upscale_factor_invariant_witness :
    (2 : Int) ∈ (upscale_image_gradio envOk "2x" "PNG" 0).upscalerCalls
    ∧ (2 : Int) ∈ ([2, 3, 4] : List Int)
    ∧ (3 : Int) ∈ (upscale_with_custom_dimensions_gradio envOk 250 300 "PNG" 0).upscalerCalls
    ∧ (3 : Int) ∈ ([2, 3, 4] : List Int) := by
  refine ⟨by decide, ?_, by decide, ?_⟩
  · exact upscale_factor_invariant.1 envOk "2x" "PNG" 0 2 (by decide)
  · exact upscale_factor_invariant.2 envOk 250 300 "PNG" 0 3 (by decide)

/-- Every call of `upscale_image_gradio` performs exactly one cleanup. -/
theorem cleanups_upscale_image (env : UpscaleEnv) (s fmt : String) (ts : Nat) :
    (upscale_image_gradio env s fmt ts).cleanups = 1 := by
  unfold upscale_image_gradio
  split
  · rfl
  · split
    · rfl
    · split
      · split <;> rfl
      · rfl

/-- Every call of `upscale_with_custom_dimensions_gradio` performs exactly one
cleanup. -/
theorem cleanups_upscale_custom (env : UpscaleEnv) (tw th : Nat)
    (fmt : String) (ts : Nat) :
    (upscale_with_custom_dimensions_gradio env tw th fmt ts).cleanups = 1 := by
  unfold upscale_with_custom_dimensions_gradio
  split
  · rfl
  · split
    · rfl
    · dsimp only
      split <;> rfl

/-- The batch loop performs one cleanup per processed item. -/
theorem batch_loop_cleanups (envs : List UpscaleEnv) (idx : Nat)
    (s fmt : String) (ts : Nat) :
    (batch_loop envs idx s fmt ts).2.2 = envs.length := by
  induction envs generalizing idx with
  | nil => rfl
  | cons e rest ih =>
    unfold batch_loop
    dsimp only
    split <;> simp [cleanups_upscale_image, ih, Nat.add_comm]

/-- C9: behaviour of `update_blocks_visibility` on all four input
combinations: both toggles enabled always yields `(True, False)` -- the
single-blocks toggle is disabled regardless of which checkbox was just
changed; otherwise both values pass through unchanged. -/
theorem update_blocks_visibility_behaviour :
    update_blocks_visibility true true = (true, false)
    ∧ update_blocks_visibility true false = (true, false)
    ∧ update_blocks_visibility false true = (false, true)
    ∧ update_blocks_visibility false false = (false, false) := by decide

/-- C7 (amended): the two single-image entry points each perform exactly one
cleanup per call on every path; `batch_upscale_gradio` has no cleanup of its
own and instead performs one per processed item -- `n` cleanups for a batch of
`n` images and none at all for an empty input. -/
theorem cleanup_per_call :
    (∀ (env : UpscaleEnv) (s fmt : String) (ts : Nat),
      (upscale_image_gradio env s fmt ts).cleanups = 1)
    ∧ (∀ (env : UpscaleEnv) (tw th : Nat) (fmt : String) (ts : Nat),
      (upscale_with_custom_dimensions_gradio env tw th fmt ts).cleanups = 1)
    ∧ (∀ (envs : List UpscaleEnv) (s fmt : String) (ts : Nat),
      (batch_upscale_gradio envs s fmt ts).cleanups = envs.length) := by
  refine ⟨cleanups_upscale_image, cleanups_upscale_custom, ?_⟩
  intro envs s fmt ts
  cases envs with
  | nil => rfl
  | cons e rest =>
    unfold batch_upscale_gradio
    rw [if_neg (by simp)]
    dsimp only
    split
    · exact batch_loop_cleanups (e :: rest) 0 s fmt ts
    · exact batch_loop_cleanups (e :: rest) 0 s fmt ts

/-- C7 counterexample: `batch_upscale_gradio` does not perform exactly one
cleanup per top-level call: an empty batch performs none and a 2-image batch
performs two. -/
theorem batch_cleanup_counterexample :
    (batch_upscale_gradio [] "2" "PNG" 0).cleanups = 0
    ∧ (batch_upscale_gradio [envOk, envOk] "2" "PNG" 0).cleanups = 2 := by decide

/-- The factor passed to the upscaler by the custom-dimensions path is the
bucketing of the maximum scale ratio at thresholds 2.5 and 3.5. -/
theorem custom_calls (env : UpscaleEnv) (tw th : Nat) (fmt : String)
    (ts : Nat) (img : Img) (h : env.inputImage = some img)
    (hwh : ¬ (img.width = 0 ∨ img.height = 0)) :
    (upscale_with_custom_dimensions_gradio env tw th fmt ts).upscalerCalls
      = [if max (mkRat (parse_scale_factor tw img.width : ℤ) img.width)
               (mkRat (parse_scale_factor th img.height : ℤ) img.height)
            ≤ mkRat 5 2 then 2
         else if max (mkRat (parse_scale_factor tw img.width : ℤ) img.width)
                  (mkRat (parse_scale_factor th img.height : ℤ) img.height)
            ≤ mkRat 7 2 then 3
         else 4] := by
  unfold upscale_with_custom_dimensions_gradio
  simp only [h]
  rw [if_neg hwh]
  split <;> rfl

/-- C3: in `upscale_with_custom_dimensions_gradio` the effective scale is the
maximum of the width and height ratios of resolved target to original, and the
integer factor passed to the external upscaler is 2 when the effective scale
lies in (0, 2.5], 3 when it lies in (2.5, 3.5], and 4 when it exceeds 3.5. -/
theorem custom_dimensions_scale_bucketing (env : UpscaleEnv)
    (tw th : Nat) (fmt : String) (ts : Nat) (img : Img)
    (h : env.inputImage = some img) (hw : 0 < img.width) (hh : 0 < img.height)
    (eff : ℚ)
    (he : eff = max ((parse_scale_factor tw img.width : ℚ) / (img.width : ℚ))
                    ((parse_scale_factor th img.height : ℚ) / (img.height : ℚ))) :
    (0 < eff ∧ eff ≤ 5/2 →
      (upscale_with_custom_dimensions_gradio env tw th fmt ts).upscalerCalls = [2])
    ∧ (5/2 < eff ∧ eff ≤ 7/2 →
      (upscale_with_custom_dimensions_gradio env tw th fmt ts).upscalerCalls = [3])
    ∧ (7/2 < eff →
      (upscale_with_custom_dimensions_gradio env tw th fmt ts).upscalerCalls = [4]) := by
  have hwh : ¬ (img.width = 0 ∨ img.height = 0) := by omega
  have hc := custom_calls env tw th fmt ts img h hwh
  have hx : mkRat (parse_scale_factor tw img.width : ℤ) img.width
      = (parse_scale_factor tw img.width : ℚ) / (img.width : ℚ) := by
    rw [Rat.mkRat_eq_div]; push_cast; ring
  have hy : mkRat (parse_scale_factor th img.height : ℤ) img.height
      = (parse_scale_factor th img.height : ℚ) / (img.height : ℚ) := by
    rw [Rat.mkRat_eq_div]; push_cast; ring
  have h52 : (mkRat 5 2 : ℚ) = 5/2 := by rw [Rat.mkRat_eq_div]; norm_num
  have h72 : (mkRat 7 2 : ℚ) = 7/2 := by rw [Rat.mkRat_eq_div]; norm_num
  rw [hx, hy, ← he, h52, h72] at hc
  refine ⟨fun hi => ?_, fun hi => ?_, fun hi => ?_⟩
  · rw [hc, if_pos hi.2]
  · rw [hc, if_neg (not_le.mpr hi.1), if_pos hi.2]
  · rw [hc, if_neg (not_le.mpr (lt_trans (by norm_num) hi)),
        if_neg (not_le.mpr hi)]

/-- Witness for C3: original 100×100, resolved targets 250×300, effective
scale 3 lies in (2.5, 3.5], so the upscaler is called with factor 3. -/
theorem custom_dimensions_scale_bucketing_witness :
    (upscale_with_custom_dimensions_gradio envOk 250 300 "PNG" 0).upscalerCalls
      = [3] := by
  have t := custom_dimensions_scale_bucketing envOk 250 300 "PNG" 0
    ⟨100, 100⟩ rfl (by decide) (by decide) 3
    (by unfold parse_scale_factor; norm_num [max_def])
  exact t.2.1 ⟨by norm_num, by norm_num⟩

/-- C4: a successful custom-dimensions call always returns an image of exactly
the resolved target width and height (a mismatching upscaler output is resized
to match); concretely, for a 100×100 original with targets 250 and 300, the
effective scale is 3, the factor 3 is chosen, and the result is exactly
250×300. -/
theorem custom_dimensions_exact_output (env : UpscaleEnv) (tw th : Nat)
    (fmt : String) (ts : Nat) (img final : Img)
    (h : env.inputImage = some img)
    (hf : (upscale_with_custom_dimensions_gradio env tw th fmt ts).image
          = some final) :
    (final.width = parse_scale_factor tw img.width
      ∧ final.height = parse_scale_factor th img.height)
    ∧ upscale_with_custom_dimensions_gradio envOk 250 300 "PNG" 0
      = ⟨some ⟨250, 300⟩, "Successfully upscaled image to 250x300", 1,
         some ⟨"upscaled_custom_250x300_0.png", none⟩, [3]⟩ := by
  refine ⟨?_, by decide⟩
  unfold upscale_with_custom_dimensions_gradio at hf
  rw [h] at hf
  split at hf
  · exact absurd hf (by simp)
  · dsimp only at hf
    split at hf
    · exact absurd hf (by simp)
    · split at hf
      · exact absurd hf (by simp)
      · simp only [Option.some.injEq] at hf
        subst hf
        split
        · exact ⟨rfl, rfl⟩
        · next hc =>
          push_neg at hc
          exact ⟨hc.1, hc.2⟩

/-- Witness for C4: the 100×100 original with targets 250 and 300 yields an
image of exactly 250×300. -/
theorem custom_dimensions_exact_output_witness :
    (250 = parse_scale_factor 250 100 ∧ 300 = parse_scale_factor 300 100)
    ∧ upscale_with_custom_dimensions_gradio envOk 250 300 "PNG" 0
      = ⟨some ⟨250, 300⟩, "Successfully upscaled image to 250x300", 1,
         some ⟨"upscaled_custom_250x300_0.png", none⟩, [3]⟩ :=
  custom_dimensions_exact_output envOk 250 300 "PNG" 0 ⟨100, 100⟩ ⟨250, 300⟩
    rfl (by decide)

/-- A middle component of a three-part concatenation is an infix. -/
theorem str_infix_parts (pre mid post : String) :
    mid.toList <:+: (pre ++ mid ++ post).toList := by
  show mid.data <:+: (pre ++ mid ++ post).data
  rw [String.data_append, String.data_append]
  exact List.infix_append _ _ _

/-- Infix via an explicit three-part decomposition. -/
theorem str_infix_of_eq (w pre mid post : String)
    (h : w = pre ++ mid ++ post) : mid.toList <:+: w.toList :=
  h ▸ str_infix_parts pre mid post

/-- Shape of a successful `upscale_image_gradio` call: some factor `f` and
upscaled image `up` determine the whole outcome, including the saved
filename `upscaled_{f}x_{timestamp}.{ext}`. -/
theorem upscale_image_gradio_success_shape (env : UpscaleEnv)
    (s fmt : String) (ts : Nat) (si : SaveInfo)
    (hs : (upscale_image_gradio env s fmt ts).saved = some si) :
    ∃ (f : Int) (up : Img), upscale_image_gradio env s fmt ts
      = ⟨some up,
         "Successfully upscaled image " ++ toString f ++ "x to "
           ++ toString up.width ++ "x" ++ toString up.height, 1,
         some ⟨"upscaled_" ++ toString f ++ "x_" ++ toString ts
                 ++ "." ++ formatExt fmt,
               formatQuality fmt⟩, [f]⟩ := by
  unfold upscale_image_gradio at hs
  cases henv : env.inputImage
  · simp [henv] at hs
  case some img =>
    simp only [henv] at hs
    cases hres : resolve_upscale_factor s
    case error m => simp [hres] at hs
    case ok f =>
      simp only [hres] at hs
      by_cases hf : f ∈ ([2, 3, 4] : List Int)
      · rw [if_pos hf] at hs
        cases hup : env.upscaler img f with
        | none => simp [hup] at hs
        | some up =>
          refine ⟨f, up, ?_⟩
          unfold upscale_image_gradio
          simp only [henv, hres, hup]
          rw [if_pos hf]
      · rw [if_neg hf] at hs; simp at hs

/-- Shape of a successful `upscale_with_custom_dimensions_gradio` call: the
returned image's dimensions are the resolved targets and they appear in the
saved filename `upscaled_custom_{w}x{h}_{timestamp}.{ext}`. -/
theorem upscale_custom_success_shape (env : UpscaleEnv) (tw th : Nat)
    (fmt : String) (ts : Nat) (si : SaveInfo)
    (hs : (upscale_with_custom_dimensions_gradio env tw th fmt ts).saved
          = some si) :
    ∃ (f : Int) (final : Img),
      upscale_with_custom_dimensions_gradio env tw th fmt ts
      = ⟨some final,
         "Successfully upscaled image to " ++ toString final.width ++ "x"
           ++ toString final.height, 1,
         some ⟨"upscaled_custom_" ++ toString final.width ++ "x"
                 ++ toString final.height ++ "_" ++ toString ts
                 ++ "." ++ formatExt fmt,
               formatQuality fmt⟩, [f]⟩ := by
  unfold upscale_with_custom_dimensions_gradio at hs
  cases henv : env.inputImage
  · simp [henv] at hs
  case some img =>
    simp only [henv] at hs
    by_cases hz : img.width = 0 ∨ img.height = 0
    · rw [if_pos hz] at hs; simp at hs
    · rw [if_neg hz] at hs
      cases hup : env.upscaler img
          (if max (mkRat (parse_scale_factor tw img.width : ℤ) img.width)
                (mkRat (parse_scale_factor th img.height : ℤ) img.height)
              ≤ mkRat 5 2 then 2
           else if max (mkRat (parse_scale_factor tw img.width : ℤ) img.width)
                (mkRat (parse_scale_factor th img.height : ℤ) img.height)
              ≤ mkRat 7 2 then 3
           else 4) with
      | none => rw [hup] at hs; simp at hs
      | some up =>
        by_cases hmm : up.width ≠ parse_scale_factor tw img.width
            ∨ up.height ≠ parse_scale_factor th img.height
        · refine ⟨(if max (mkRat (parse_scale_factor tw img.width : ℤ) img.width)
                (mkRat (parse_scale_factor th img.height : ℤ) img.height)
              ≤ mkRat 5 2 then 2
            else if max (mkRat (parse_scale_factor tw img.width : ℤ) img.width)
                (mkRat (parse_scale_factor th img.height : ℤ) img.height)
              ≤ mkRat 7 2 then 3
            else 4 : Int),
            ⟨parse_scale_factor tw img.width,
             parse_scale_factor th img.height⟩, ?_⟩
          unfold upscale_with_custom_dimensions_gradio
          simp only [henv]
          rw [if_neg hz]
          simp only [hup]
          rw [if_pos hmm]
        · refine ⟨(if max (mkRat (parse_scale_factor tw img.width : ℤ) img.width)
                (mkRat (parse_scale_factor th img.height : ℤ) img.height)
              ≤ mkRat 5 2 then 2
            else if max (mkRat (parse_scale_factor tw img.width : ℤ) img.width)
                (mkRat (parse_scale_factor th img.height : ℤ) img.height)
              ≤ mkRat 7 2 then 3
            else 4 : Int), up, ?_⟩
          unfold upscale_with_custom_dimensions_gradio
          simp only [henv]
          rw [if_neg hz]
          simp only [hup]
          rw [if_neg hmm]
          push_neg at hmm
          rw [hmm.1, hmm.2]

/-- C5 counterexample: the fixed-factor path saves a 2x upscale of a 100×100
image at timestamp 1000 as `upscaled_2x_1000.png`: the filename encodes the
factor and the timestamp but neither the upscaled (200×200) nor the original
(100×100) image dimensions. -/
theorem save_filename_counterexample :
    (upscale_image_gradio envOk "2" "PNG" 1000).saved
      = some ⟨"upscaled_2x_1000.png", none⟩
    ∧ (upscale_image_gradio envOk "2" "PNG" 1000).image = some ⟨200, 200⟩
    ∧ ¬ (("200x200" : String).toList
          <:+: ("upscaled_2x_1000.png" : String).toList)
    ∧ ¬ (("100x100" : String).toList
          <:+: ("upscaled_2x_1000.png" : String).toList) := by
  exact ⟨by decide, by decide, by decide, by decide⟩

/-- C5 (amended): every saved filename encodes the unix timestamp; the
fixed-factor path also encodes the factor (as `{f}x`) but not the image
dimensions, while the custom-dimensions path encodes the final image
dimensions (as `{w}x{h}`); JPEG and WebP outputs are saved with quality 95
and PNG with no quality parameter. -/
theorem save_result_filename_and_quality :
    (∀ (env : UpscaleEnv) (s fmt : String) (ts : Nat) (si : SaveInfo),
      (upscale_image_gradio env s fmt ts).saved = some si →
      ((toString ts).toList <:+: si.filename.toList)
      ∧ (∀ f : Int, (upscale_image_gradio env s fmt ts).upscalerCalls = [f] →
          (toString f ++ "x").toList <:+: si.filename.toList)
      ∧ (fmt = "PNG" → si.quality = none)
      ∧ (fmt ≠ "PNG" → si.quality = some 95))
    ∧ (∀ (env : UpscaleEnv) (tw th : Nat) (fmt : String) (ts : Nat)
        (si : SaveInfo) (final : Img),
      (upscale_with_custom_dimensions_gradio env tw th fmt ts).saved
        = some si →
      (upscale_with_custom_dimensions_gradio env tw th fmt ts).image
        = some final →
      ((toString ts).toList <:+: si.filename.toList)
      ∧ ((toString final.width ++ "x" ++ toString final.height).toList
          <:+: si.filename.toList)
      ∧ (fmt = "PNG" → si.quality = none)
      ∧ (fmt ≠ "PNG" → si.quality = some 95)) := by
  constructor
  · intro env s fmt ts si hs
    obtain ⟨f, up, heq⟩ := upscale_image_gradio_success_shape env s fmt ts si hs
    rw [heq] at hs
    simp only [Option.some.injEq] at hs
    subst hs
    refine ⟨?_, ?_, ?_, ?_⟩
    · exact str_infix_of_eq _ ("upscaled_" ++ toString f ++ "x_")
        (toString ts) ("." ++ formatExt fmt) (by simp [String.append_assoc])
    · intro g hg
      rw [heq] at hg
      simp only [List.cons.injEq, and_true] at hg
      subst hg
      exact str_infix_of_eq _ "upscaled_" (toString f ++ "x")
        ("_" ++ toString ts ++ "." ++ formatExt fmt)
        (by simp only [String.append_assoc]
            rw [show ("x_" : String) = "x" ++ "_" from rfl,
                String.append_assoc])
    · intro hp; subst hp; rfl
    · intro hp; simp [formatQuality, hp]
  · intro env tw th fmt ts si final hs hi
    obtain ⟨f, fin, heq⟩ := upscale_custom_success_shape env tw th fmt ts si hs
    rw [heq] at hs hi
    simp only [Option.some.injEq] at hs hi
    subst hs
    subst hi
    refine ⟨?_, ?_, ?_, ?_⟩
    · exact str_infix_of_eq _
        ("upscaled_custom_" ++ toString fin.width ++ "x"
          ++ toString fin.height ++ "_")
        (toString ts) ("." ++ formatExt fmt) (by simp [String.append_assoc])
    · exact str_infix_of_eq _ "upscaled_custom_"
        (toString fin.width ++ "x" ++ toString fin.height)
        ("_" ++ toString ts ++ "." ++ formatExt fmt)
        (by simp [String.append_assoc])
    · intro hp; subst hp; rfl
    · intro hp; simp [formatQuality, hp]

/-- Witness for C5 at a concrete fixed-factor save: the timestamp and the
factor marker appear in the saved filename. -/
theorem save_result_filename_and_quality_witness :
    ((toString (1000 : Nat)).toList
      <:+: ("upscaled_2x_1000.png" : String).toList)
    ∧ ((toString (2 : Int) ++ "x").toList
      <:+: ("upscaled_2x_1000.png" : String).toList) := by
  have t := save_result_filename_and_quality.1 envOk "2" "PNG" 1000
    ⟨"upscaled_2x_1000.png", none⟩ (by decide)
  exact ⟨t.1, t.2.1 2 (by decide)⟩

/-- C6: batch processing is sequential and failure-isolating: in a 3-image
batch whose second item fails (and first and third succeed), the result keeps
the two successful images in order, processing is not aborted, and the final
message counts the 2 successes and lists the per-item failure labelled with
its 1-based position "Image 2". -/
theorem batch_error_isolation (e1 e2 e3 : UpscaleEnv) (s fmt : String)
    (ts : Nat) (i1 i3 : Img)
    (h1 : (upscale_image_gradio e1 s fmt ts).image = some i1)
    (h2 : (upscale_image_gradio e2 s fmt ts).image = none)
    (h3 : (upscale_image_gradio e3 s fmt ts).image = some i3) :
    (batch_upscale_gradio [e1, e2, e3] s fmt ts).images = [i1, i3]
    ∧ (batch_upscale_gradio [e1, e2, e3] s fmt ts).message
        = "Successfully upscaled 2 image(s)\n\nErrors:\nImage 2: "
          ++ (upscale_image_gradio e2 s fmt ts).message
    ∧ (("Image 2" : String).toList
        <:+: (batch_upscale_gradio [e1, e2, e3] s fmt ts).message.toList) := by
  have key : batch_upscale_gradio [e1, e2, e3] s fmt ts
      = ⟨[i1, i3],
         "Successfully upscaled 2 image(s)\n\nErrors:\nImage 2: "
           ++ (upscale_image_gradio e2 s fmt ts).message,
         (upscale_image_gradio e1 s fmt ts).cleanups
           + ((upscale_image_gradio e2 s fmt ts).cleanups
           + ((upscale_image_gradio e3 s fmt ts).cleanups + 0))⟩ := by
    unfold batch_upscale_gradio
    simp only [batch_loop, h1, h2, h3]
    norm_num
    rw [if_neg (by simp)]
    rfl
  refine ⟨by rw [key], by rw [key], ?_⟩
  rw [key]
  exact str_infix_of_eq _ "Successfully upscaled 2 image(s)\n\nErrors:\n"
    "Image 2" (": " ++ (upscale_image_gradio e2 s fmt ts).message)
    (by rw [show ("Successfully upscaled 2 image(s)\n\nErrors:\nImage 2: "
              : String)
            = ("Successfully upscaled 2 image(s)\n\nErrors:\n" ++ "Image 2")
              ++ ": " from rfl,
          String.append_assoc])

/-- Witness for C6: a 3-image batch whose second item has no input image
yields the two successful 200×200 images and an error summary naming
"Image 2". -/
theorem batch_error_isolation_witness :
    (batch_upscale_gradio [envOk, envNoInput, envOk] "2" "PNG" 0).images
      = [⟨200, 200⟩, ⟨200, 200⟩]
    ∧ (batch_upscale_gradio [envOk, envNoInput, envOk] "2" "PNG" 0).message
      = "Successfully upscaled 2 image(s)\n\nErrors:\nImage 2: "
        ++ (upscale_image_gradio envNoInput "2" "PNG" 0).message
    ∧ (("Image 2" : String).toList
        <:+: (batch_upscale_gradio [envOk, envNoInput, envOk]
                "2" "PNG" 0).message.toList) :=
  batch_error_isolation envOk envNoInput envOk "2" "PNG" 0
    ⟨200, 200⟩ ⟨200, 200⟩ (by decide) (by decide) (by decide)

/-- A string whose character list is a prefix of `a` is a prefix of `a ++ b`. -/
theorem str_prefix_of_append (p a b : String) (h : p.toList <+: a.toList) :
    p.toList <+: (a ++ b).toList := by
  show p.data <+: (a ++ b).data
  rw [String.data_append]
  exact h.trans (List.prefix_append _ _)

/-- The only error result of factor resolution is the uncaught
`int()` `ValueError` message. -/
theorem resolve_error_shape (s m : String)
    (h : resolve_upscale_factor s = .error m) :
    m = "Error: invalid literal for int() with base 10: " ++ s := by
  unfold resolve_upscale_factor at h
  by_cases h0 : pyStrip s.toList ≠ []
  · rw [if_pos h0] at h
    dsimp only at h
    by_cases hx : endsInX (pyLower (pyStrip s.toList)) = true
    · rw [if_pos hx] at h
      cases hp : parseFloat? ⟨(pyLower (pyStrip s.toList)).filter (· ≠ 'x')⟩ <;>
        rw [hp] at h <;> simp at h
    · rw [if_neg hx] at h
      cases hp : parseFloat? s <;> rw [hp] at h <;> simp at h
  · rw [if_neg h0] at h
    by_cases hs : s ≠ ""
    · rw [if_pos hs] at h
      simp only [Except.error.injEq] at h
      exact h.symm
    · rw [if_neg hs] at h
      simp at h

/-- C8 counterexample: a 1-image batch whose only item fails returns the pair
`([], "Failed to upscale any images\n\nImage 1: ...")`: the message does not
begin with "Error". -/
theorem error_prefix_counterexample :
    (batch_upscale_gradio [envFail] "2" "PNG" 0).images = []
    ∧ (batch_upscale_gradio [envFail] "2" "PNG" 0).message
        = "Failed to upscale any images\n\nImage 1: Error: Failed to upscale image"
    ∧ ¬ (("Error" : String).toList
          <+: (batch_upscale_gradio [envFail] "2" "PNG" 0).message.toList) := by
  exact ⟨by decide, by decide, by decide⟩

/-- C8 (amended): no entry point propagates an exception (each is a total
function of its environment); every failing single-image call returns
`(None, message)` with the message beginning "Error"; a falsy input yields
exactly `(None, "Error: Input image is required")` and an empty batch yields
`([], "Error: No images provided")`; but the batch all-failures summary
begins with "Failed to upscale any images" instead of "Error". -/
theorem error_result_contract :
    (∀ (env : UpscaleEnv) (s fmt : String) (ts : Nat),
      (upscale_image_gradio env s fmt ts).image = none →
      ("Error" : String).toList
        <+: (upscale_image_gradio env s fmt ts).message.toList)
    ∧ (∀ (env : UpscaleEnv) (tw th : Nat) (fmt : String) (ts : Nat),
      (upscale_with_custom_dimensions_gradio env tw th fmt ts).image = none →
      ("Error" : String).toList
        <+: (upscale_with_custom_dimensions_gradio env tw th fmt ts).message.toList)
    ∧ (∀ (env : UpscaleEnv) (s fmt : String) (ts : Nat),
      env.inputImage = none →
      upscale_image_gradio env s fmt ts
        = ⟨none, "Error: Input image is required", 1, none, []⟩)
    ∧ (∀ (s fmt : String) (ts : Nat),
      batch_upscale_gradio [] s fmt ts = ⟨[], "Error: No images provided", 0⟩)
    ∧ (∀ (envs : List UpscaleEnv) (s fmt : String) (ts : Nat),
      (batch_upscale_gradio envs s fmt ts).images = [] →
      (("Error" : String).toList
         <+: (batch_upscale_gradio envs s fmt ts).message.toList)
      ∨ (("Failed to upscale any images" : String).toList
         <+: (batch_upscale_gradio envs s fmt ts).message.toList)) := by
  refine ⟨?_, ?_, ?_, ?_, ?_⟩
  · intro env s fmt ts hi
    unfold upscale_image_gradio at hi ⊢
    cases henv : env.inputImage
    · simp only [henv]
      show ("Error" : String).toList
        <+: ("Error: Input image is required" : String).toList
      decide
    case some img =>
      simp only [henv] at hi ⊢
      cases hres : resolve_upscale_factor s
      case error m =>
        simp only [hres]
        rw [resolve_error_shape s m hres]
        exact str_prefix_of_append _ _ _ (by decide)
      case ok f =>
        simp only [hres] at hi ⊢
        by_cases hf : f ∈ ([2, 3, 4] : List Int)
        · rw [if_pos hf] at hi ⊢
          generalize hG : env.upscaler img f = G at hi ⊢
          cases G with
          | none =>
            show ("Error" : String).toList
              <+: ("Error: Failed to upscale image" : String).toList
            decide
          | some up => simp at hi
        · rw [if_neg hf]
          show ("Error" : String).toList
            <+: ("Error: Upscale factor must be 2, 3, or 4" : String).toList
          decide
  · intro env tw th fmt ts hi
    unfold upscale_with_custom_dimensions_gradio at hi ⊢
    cases henv : env.inputImage
    · simp only [henv]
      show ("Error" : String).toList
        <+: ("Error: Input image is required" : String).toList
      decide
    case some img =>
      simp only [henv] at hi ⊢
      by_cases hz : img.width = 0 ∨ img.height = 0
      · rw [if_pos hz]
        show ("Error" : String).toList
          <+: ("Error: division by zero" : String).toList
        decide
      · rw [if_neg hz] at hi ⊢
        generalize hG : env.upscaler img
            (if max (mkRat (parse_scale_factor tw img.width : ℤ) img.width)
                  (mkRat (parse_scale_factor th img.height : ℤ) img.height)
                ≤ mkRat 5 2 then 2
             else if max (mkRat (parse_scale_factor tw img.width : ℤ) img.width)
                  (mkRat (parse_scale_factor th img.height : ℤ) img.height)
                ≤ mkRat 7 2 then 3
             else 4) = G at hi ⊢
        cases G with
        | none =>
          show ("Error" : String).toList
            <+: ("Error: Failed to upscale image" : String).toList
          decide
        | some up => simp at hi
  · intro env s fmt ts h
    unfold upscale_image_gradio
    simp only [h]
  · intro s fmt ts
    rfl
  · intro envs s fmt ts hemp
    cases envs with
    | nil =>
      left
      show ("Error" : String).toList
        <+: ("Error: No images provided" : String).toList
      decide
    | cons e rest =>
      unfold batch_upscale_gradio at hemp ⊢
      rw [if_neg (by simp)] at hemp ⊢
      dsimp only at hemp ⊢
      split at hemp
      next hne => exact absurd hemp hne
      next hne =>
        rw [if_neg hne]
        right
        exact str_prefix_of_append _ "Failed to upscale any images\n\n" _
          (by decide)

/-- Witness for C8 at concrete environments: a failing upscale yields an
"Error"-prefixed message, the missing-input and empty-batch pairs are exact,
and the all-failures batch summary begins with "Failed to upscale any
images". -/
theorem error_result_contract_witness :
    (("Error" : String).toList
      <+: (upscale_image_gradio envFail "2" "PNG" 0).message.toList)
    ∧ upscale_image_gradio envNoInput "2" "PNG" 0
        = ⟨none, "Error: Input image is required", 1, none, []⟩
    ∧ batch_upscale_gradio [] "2" "PNG" 0
        = ⟨[], "Error: No images provided", 0⟩
    ∧ (("Failed to upscale any images" : String).toList
        <+: (batch_upscale_gradio [envFail] "2" "PNG" 0).message.toList) := by
  refine ⟨error_result_contract.1 envFail "2" "PNG" 0 (by decide),
    error_result_contract.2.2.1 envNoInput "2" "PNG" 0 rfl,
    error_result_contract.2.2.2.1 "2" "PNG" 0, ?_⟩
  rcases error_result_contract.2.2.2.2 [envFail] "2" "PNG" 0 (by decide)
    with h | h
  · exact absurd h (by decide)
  · exact h

/-- Each shown file contributes exactly two updates. -/
theorem flatMap_pair_length (l : List String) :
    (l.flatMap
      (fun f => [(⟨some f, true⟩ : GrUpdate), ⟨some "", true⟩])).length
    = 2 * l.length := by
  induction l with
  | nil => rfl
  | cons a t ih => simp only [List.flatMap_cons, List.length_append, ih,
      List.length_cons, List.length_nil]; omega

/-- Each hidden slot contributes exactly two updates. -/
theorem flatten_replicate_pair_length (n : Nat) :
    ((List.replicate n
      ([⟨none, false⟩, ⟨some "", false⟩] : List GrUpdate)).flatten).length
    = 2 * n := by
  induction n with
  | zero => rfl
  | succ k ih => simp only [List.replicate_succ, List.flatten_cons,
      List.length_append, ih, List.length_cons, List.length_nil]; omega

/-- Every update in the hidden-slot block is invisible. -/
theorem mem_hidden_flatten (n : Nat) (u : GrUpdate)
    (h : u ∈ (List.replicate n
      ([⟨none, false⟩, ⟨some "", false⟩] : List GrUpdate)).flatten) :
    u.visible = false := by
  rw [List.mem_flatten] at h
  obtain ⟨l, hl, hu⟩ := h
  rw [List.mem_replicate] at hl
  rw [hl.2] at hu
  simp only [List.mem_cons, List.mem_singleton, List.not_mem_nil,
    or_false] at hu
  rcases hu with rfl | rfl <;> rfl

/-- On a non-empty upload list, `show_images` is the shown block for the
first 20 files followed by the hidden block for the remaining slots. -/
theorem show_images_nonempty (fs : List String) (h : fs ≠ []) :
    show_images (some fs)
      = (fs.take 20).flatMap
          (fun f => [(⟨some f, true⟩ : GrUpdate), ⟨some "", true⟩])
        ++ (List.replicate (20 - (fs.take 20).length)
            ([⟨none, false⟩, ⟨some "", false⟩] : List GrUpdate)).flatten := by
  unfold show_images
  rw [if_neg (by simp [h])]
  rfl

/-- C10: the upload handler `show_images` always returns exactly 40 widget
updates (one image and one caption update per each of 20 slots); a missing or
empty file list yields 40 hidden updates; a non-empty list shows only the
first 20 files, each with a visible emptied caption, silently ignores any
further files, and hides the remaining slots. -/
theorem show_images_updates :
    (∀ files, (show_images files).length = 40)
    ∧ (∀ u ∈ show_images none, u.visible = false)
    ∧ (∀ u ∈ show_images (some []), u.visible = false)
    ∧ (∀ fs : List String,
        show_images (some fs) = show_images (some (fs.take 20)))
    ∧ (∀ fs : List String, fs ≠ [] →
        ((show_images (some fs)).take (2 * min fs.length 20)
          = (fs.take 20).flatMap
              (fun f => [(⟨some f, true⟩ : GrUpdate), ⟨some "", true⟩]))
        ∧ (∀ u ∈ (show_images (some fs)).drop (2 * min fs.length 20),
            u.visible = false)) := by
  have hidden40 : ∀ u ∈ List.replicate 40 (⟨none, false⟩ : GrUpdate),
      u.visible = false := by
    intro u hu
    rw [List.mem_replicate] at hu
    rw [hu.2]
  refine ⟨?_, fun u hu => hidden40 u hu, fun u hu => hidden40 u hu, ?_, ?_⟩
  · intro files
    match files with
    | none => rfl
    | some [] => rfl
    | some (a :: t) =>
      rw [show_images_nonempty (a :: t) (by simp), List.length_append,
        flatMap_pair_length, flatten_replicate_pair_length]
      have : ((a :: t).take 20).length = min 20 (a :: t).length :=
        List.length_take 20 (a :: t)
      omega
  · intro fs
    match fs with
    | [] => rfl
    | a :: t =>
      rw [show_images_nonempty (a :: t) (by simp),
        show_images_nonempty ((a :: t).take 20) (by simp),
        List.take_take, Nat.min_self]
  · intro fs hne
    have hlen : ((fs.take 20).flatMap
        (fun f => [(⟨some f, true⟩ : GrUpdate), ⟨some "", true⟩])).length
        = 2 * min fs.length 20 := by
      rw [flatMap_pair_length, List.length_take, Nat.min_comm]
    constructor
    · rw [show_images_nonempty fs hne, ← hlen, List.take_left]
    · intro u hu
      rw [show_images_nonempty fs hne, ← hlen, List.drop_left] at hu
      exact mem_hidden_flatten _ u hu

/-- Witness for C10 on the one-file upload list `["a"]`: the shown prefix is
the visible image/caption pair and everything after it is hidden. -/
theorem show_images_updates_witness :
    ((show_images (some ["a"])).take
        (2 * min (["a"] : List String).length 20)
      = ((["a"] : List String).take 20).flatMap
          (fun f => [(⟨some f, true⟩ : GrUpdate), ⟨some "", true⟩]))
    ∧ (∀ u ∈ (show_images (some ["a"])).drop
          (2 * min (["a"] : List String).length 20), u.visible = false) :=
  show_images_updates.2.2.2.2 ["a"] (by decide)
